import Mathlib

/-!
Verification of the agent routing and consultation subsystem of the
Cursor-Project repository (agents/Core/agent_registry.py,
agents/Core/agent_router.py, agents/Core/global_rules.py).

The Python code is shallowly embedded: dictionaries become
insertion-ordered association lists (Python dicts preserve insertion
order; assignment to an existing key keeps its position), exceptions
become `Except PyErr`, opaque JSON-like payloads become `PyData`,
floats become `ℚ`, and wall-clock time (timestamps, measured durations,
the signal-based timeout) is abstracted to `0` since no claim depends
on real time.  Calls into the best-effort reporting service are
swallowed by `try/except: pass` in the source and are omitted.
Side effects that the claims observe (agent invocations, backoff
sleeps) are returned as an explicit event trace.
-/

/-- Opaque JSON-like Python value, as far as the registry/router inspect it. -/
inductive PyData where
  | pyNone : PyData
  | boolVal : Bool → PyData
  | strVal : String → PyData
  | natVal : Nat → PyData
  | emptyDict : PyData
deriving DecidableEq

/-- Python truthiness of a `PyData` value. -/
def pyTruthy : PyData → Bool
  | .pyNone => false
  | .boolVal b => b
  | .strVal s => s ≠ ""
  | .natVal n => n ≠ 0
  | .emptyDict => false

/-- Python exceptions that the embedded code can raise. -/
inductive PyErr where
  | keyError : String → PyErr
  | unboundLocalError : String → PyErr
  | timeoutError : String → PyErr
  | otherError : String → PyErr
deriving DecidableEq

/-- `str(e)` for the exceptions we model. -/
def pyErrStr : PyErr → String
  | .keyError k => "\x27" ++ k ++ "\x27"
  | .unboundLocalError v => "local variable \x27" ++ v ++ "\x27 referenced before assignment"
  | .timeoutError m => m
  | .otherError m => m

/-- A consultation context: an arbitrary string-keyed mapping. -/
def Ctx : Type := List (String × PyData)

instance : DecidableEq Ctx := by
  unfold Ctx
  infer_instance

/-- ASCII lowering, standing in for Python `str.lower()`. -/
def pyToLower (s : String) : String := ⟨s.data.map Char.toLower⟩

def isSpaceChar (c : Char) : Bool := c = ' ' || c = '\t' || c = '\n' || c = '\r'

def splitWordsAux : List Char → List Char → List String
  | [], cur => if cur.isEmpty then [] else [String.mk cur.reverse]
  | c :: cs, cur =>
    if isSpaceChar c then
      (if cur.isEmpty then splitWordsAux cs [] else String.mk cur.reverse :: splitWordsAux cs [])
    else splitWordsAux cs (c :: cur)

/-- Python `str.split()`: split on whitespace runs, dropping empty pieces. -/
def pySplit (s : String) : List String := splitWordsAux s.data []

/-- Python `needle in hay` on strings (substring test). -/
def strContainsB (hay needle : String) : Bool :=
  hay.data.tails.any (fun t => needle.data.isPrefixOf t)

/-- Lookup in an insertion-ordered association list (Python `d.get(k)` / `k in d`). -/
def dictGet {K V : Type} [DecidableEq K] (d : List (K × V)) (k : K) : Option V :=
  match d with
  | [] => none
  | (k', v) :: rest => if k' = k then some v else dictGet rest k

/-- Python `d[k] = v`: overwrite in place (keeping the key's position) or append. -/
def dictSet {K V : Type} [DecidableEq K] (d : List (K × V)) (k : K) (v : V) : List (K × V) :=
  if (dictGet d k).isSome then d.map (fun p => if p.1 = k then (k, v) else p)
  else d ++ [(k, v)]

/-- Stable descending insertion sort, standing in for Python
`list.sort(key=..., reverse=True)` (both compute the unique stable
descending-by-key reordering). -/
def sortDescBy {α : Type} (key : α → ℚ) (l : List α) : List α :=
  l.insertionSort (fun a b => key b ≤ key a)

/-! ## Registry data model (agent_registry.py) -/

/-- The `Agent` abstract base class: the four-method capability interface. -/
structure Agent where
  get_name : String
  get_capabilities : List String
  can_help_with : String → Bool
  /-- `consult(query, context)`; may raise. -/
  consult : String → Ctx → Except PyErr PyData

/-- Per-agent performance counters kept in `_agent_performance`. -/
structure AgentPerformance where
  total_consultations : Nat
  successful_consultations : Nat
  failed_consultations : Nat
  success_rate : ℚ
deriving DecidableEq

/-- The dict a fresh `_agent_performance` entry is initialised to. -/
def initialPerformance : AgentPerformance :=
  { total_consultations := 0
    successful_consultations := 0
    failed_consultations := 0
    success_rate := 0.5 }

/-- The mutation `_update_agent_performance` applies to one entry. -/
def performanceStep (perf : AgentPerformance) (success : Bool) : AgentPerformance :=
  let perf := { perf with total_consultations := perf.total_consultations + 1 }
  let perf :=
    if success then
      { perf with successful_consultations := perf.successful_consultations + 1 }
    else
      { perf with failed_consultations := perf.failed_consultations + 1 }
  if perf.total_consultations > 0 then
    { perf with success_rate :=
        (perf.successful_consultations : ℚ) / (perf.total_consultations : ℚ) }
  else perf

/-- `AgentRegistry._update_agent_performance`. -/
def update_agent_performance (performance : List (String × AgentPerformance))
    (agent_name : String) (success : Bool) : List (String × AgentPerformance) :=
  let performance :=
    if (dictGet performance agent_name).isSome then performance
    else dictSet performance agent_name initialPerformance
  performance.map (fun p => if p.1 = agent_name then (agent_name, performanceStep p.2 success) else p)

/-- `AgentRegistry._calculate_relevance_score`. -/
def calculate_relevance_score (performance : List (String × AgentPerformance))
    (agent : Agent) (query_lower : String) : ℚ :=
  let score : ℚ := 0
  -- Base score from can_help_with (0.3)
  let score := score + 0.3
  -- Score based on agent name matching query keywords (0.2)
  let agent_name_lower := pyToLower agent.get_name
  let query_words := pySplit query_lower
  let name_matches := (query_words.filter (fun word => strContainsB agent_name_lower word)).length
  let score := if name_matches > 0 then score + min 0.2 ((name_matches : ℚ) * 0.1) else score
  -- Score based on capabilities matching query (0.3)
  let capability_matches :=
    (agent.get_capabilities.filter
      (fun cap => query_words.any (fun word => strContainsB (pyToLower cap) word))).length
  let score := if capability_matches > 0 then score + min 0.3 ((capability_matches : ℚ) * 0.1) else score
  -- Score based on historical performance (0.2); only when an entry exists
  let score :=
    match dictGet performance agent.get_name with
    | some perf => score + 0.2 * perf.success_rate
    | none => score
  min score 1

/-- Cache key: the source builds it as `md5(json.dumps({agent, query, context or {}},
sort_keys=True))`; the hash of the canonical serialisation is modelled by the
canonical triple itself (md5 is assumed collision-free). -/
structure CacheKey where
  agent : String
  query : String
  context : Ctx
deriving DecidableEq

/-- `AgentRegistry._get_cache_key`. -/
def get_cache_key (agent_name query : String) (context : Option Ctx) : CacheKey :=
  { agent := agent_name, query := query, context := context.getD [] }

/-- The result dict `consult_agent` returns; optional fields model keys that
are present only on some paths. -/
structure ConsultResult where
  success : Bool
  agent : Option String
  response : Option PyData
  error : Option String
  duration_ms : Option Nat
  cached : Option Bool
  available_agents : Option (List String)
deriving DecidableEq

/-- The `response` field of a consultation record: the raw payload on the
success path, the whole error-result dict on the failure path. -/
inductive RecordedResponse where
  | payload : PyData → RecordedResponse
  | failure : ConsultResult → RecordedResponse
deriving DecidableEq

/-- One entry of `consultation_history` (timestamp abstracted away). -/
structure ConsultationRecord where
  to_agent : String
  query : String
  response : RecordedResponse
  duration_ms : Nat
  attempt : Option Nat
  error : Option String
deriving DecidableEq

/-- `AgentRegistry._cache_result`: FIFO-evict the first (oldest) key when at
capacity, then insert.  (The registry fixes `_cache_max_size = 100 > 0`, so
the `next(iter(...))` call always sees a non-empty dict.) -/
def cache_result (cache : List (CacheKey × ConsultResult)) (cache_max_size : Nat)
    (cache_key : CacheKey) (result : ConsultResult) : List (CacheKey × ConsultResult) :=
  let cache := if cache.length ≥ cache_max_size then cache.tail else cache
  dictSet cache cache_key result

/-- Mutable state of an `AgentRegistry` instance. -/
structure RegistryState where
  agents : List (String × Agent)
  consultation_history : List ConsultationRecord
  enable_caching : Bool
  default_timeout : Nat
  max_retries : Nat
  consultation_cache : List (CacheKey × ConsultResult)
  cache_max_size : Nat
  agent_performance : List (String × AgentPerformance)

/-- `AgentRegistry.__init__` with the default arguments. -/
def registryInit (agents : List (String × Agent)) : RegistryState :=
  { agents := agents
    consultation_history := []
    enable_caching := true
    default_timeout := 30
    max_retries := 2
    consultation_cache := []
    cache_max_size := 100
    agent_performance := [] }

/-- `AgentRegistry.register_agent`. -/
def register_agent (st : RegistryState) (agent : Agent) : RegistryState :=
  { st with agents := dictSet st.agents agent.get_name agent }

/-- `AgentRegistry.get_agent`. -/
def get_agent (st : RegistryState) (agent_name : String) : Option Agent :=
  dictGet st.agents agent_name

/-- `AgentRegistry.list_agents`. -/
def list_agents (st : RegistryState) : List String := st.agents.map (·.1)

/-- `AgentRegistry.find_helpful_agents`. -/
def find_helpful_agents (st : RegistryState) (query : String) : List (Agent × ℚ) :=
  let query_lower := pyToLower query
  let helpful := (st.agents.map (·.2)).filterMap (fun agent =>
    if agent.can_help_with query then
      some (agent, calculate_relevance_score st.agent_performance agent query_lower)
    else none)
  sortDescBy (fun x => x.2) helpful

/-- Observable side effects of a consultation. -/
inductive Event where
  /-- one call into `agent.consult` (agent name, 1-based attempt number) -/
  | invoke : String → Nat → Event
  /-- `time.sleep(seconds)` during exponential backoff -/
  | sleep : Nat → Event
deriving DecidableEq

def Event.isInvoke : Event → Bool
  | .invoke _ _ => true
  | .sleep _ => false

def Event.sleepSeconds : Event → Option Nat
  | .invoke _ _ => none
  | .sleep s => some s

/-- Outcome of the `try:` block of one attempt inside `consult_agent`
(every raise inside the block, including the cache step, lands in the
`except` clauses). -/
inductive StepOut where
  | done : ConsultResult → RegistryState → StepOut
  | failed : PyErr → RegistryState → StepOut

/-- The state mutations of the success branch that precede the cache step:
append the success record, update performance, build the result dict.
(`duration_ms` is wall-clock time, abstracted to 0.) -/
def successProcess (st : RegistryState) (agent_name query : String)
    (response : PyData) (attempt : Nat) : RegistryState × ConsultResult :=
  let record : ConsultationRecord :=
    { to_agent := agent_name
      query := query
      response := .payload response
      duration_ms := 0
      attempt := some (attempt + 1)
      error := none }
  let st := { st with consultation_history := st.consultation_history ++ [record] }
  let st := { st with agent_performance := update_agent_performance st.agent_performance agent_name true }
  let result : ConsultResult :=
    { success := true
      agent := some agent_name
      response := some response
      error := none
      duration_ms := some 0
      cached := some false
      available_agents := none }
  (st, result)

/-- One iteration of the retry loop's `try:` block.  The timeout wrapper
`_consult_with_timeout` is real-time machinery; in the embedding the agent's
`consult` either returns or raises (a raised `TimeoutError` is one of the
possible `PyErr`s).  Note the latent slip reproduced from the source: when
`enable_caching` is true but `cache_key` was never assigned (because
`use_cache` was false), the cache step raises `UnboundLocalError` *after*
the success record and performance update have already been applied. -/
def consultStep (agent : Agent) (agent_name query : String) (ctx : Ctx)
    (cache_key : Option CacheKey) (st : RegistryState) (attempt : Nat) : StepOut :=
  match agent.consult query ctx with
  | .error e => .failed e st
  | .ok response =>
    let (st, result) := successProcess st agent_name query response attempt
    if st.enable_caching then
      match cache_key with
      | some k =>
        .done result { st with consultation_cache := cache_result st.consultation_cache st.cache_max_size k result }
      | none => .failed (.unboundLocalError "cache_key") st
    else .done result st

/-- Result of running the whole retry loop. -/
structure AttemptOut where
  result : Option ConsultResult
  lastErr : Option PyErr
  st : RegistryState
  events : List Event

/-- The retry loop `for attempt in range(max_retries + 1)`.  `fuel` is the
number of retries still allowed after the current attempt, so the loop is
entered with `fuel = max_retries` and `fuel > 0` is Python's
`attempt < self.max_retries`; `2 ^ attempt` is the backoff sleep. -/
def attemptLoop (agent : Agent) (agent_name query : String) (ctx : Ctx)
    (cache_key : Option CacheKey) (st : RegistryState) (attempt : Nat) :
    Nat → AttemptOut
  | 0 =>
    match consultStep agent agent_name query ctx cache_key st attempt with
    | .done r st' => ⟨some r, none, st', [.invoke agent_name (attempt + 1)]⟩
    | .failed e st' => ⟨none, some e, st', [.invoke agent_name (attempt + 1)]⟩
  | fuel + 1 =>
    match consultStep agent agent_name query ctx cache_key st attempt with
    | .done r st' => ⟨some r, none, st', [.invoke agent_name (attempt + 1)]⟩
    | .failed e st' =>
      let rest := attemptLoop agent agent_name query ctx cache_key st' (attempt + 1) fuel
      ⟨rest.result, some (rest.lastErr.getD e), rest.st,
        .invoke agent_name (attempt + 1) :: .sleep (2 ^ attempt) :: rest.events⟩

/-- `AgentRegistry.consult_agent`.  Returns the result dict, the new registry
state, and the trace of agent invocations and backoff sleeps.  The optional
`timeout` argument only feeds the real-time timeout machinery, which the
embedding abstracts. -/
def consult_agent (st : RegistryState) (agent_name query : String)
    (context : Option Ctx) (_timeout : Option Nat) (use_cache : Bool) :
    ConsultResult × RegistryState × List Event :=
  match get_agent st agent_name with
  | none =>
    ({ success := false
       agent := none
       response := none
       error := some ("Agent \x27" ++ agent_name ++ "\x27 not found")
       duration_ms := none
       cached := none
       available_agents := some (list_agents st) }, st, [])
  | some agent =>
    -- Check cache first; `cache_key` stays unassigned unless this branch runs.
    let cache_key : Option CacheKey :=
      if st.enable_caching && use_cache then some (get_cache_key agent_name query context)
      else none
    let hit : Option ConsultResult :=
      match cache_key with
      | some k => dictGet st.consultation_cache k
      | none => none
    match hit with
    | some cached_result => (cached_result, st, [])
    | none =>
      let out := attemptLoop agent agent_name query (context.getD []) cache_key st 0 st.max_retries
      match out.result with
      | some result => (result, out.st, out.events)
      | none =>
        -- All retries failed
        let st' := { out.st with
          agent_performance := update_agent_performance out.st.agent_performance agent_name false }
        let errMsg := match out.lastErr with
          | some e => pyErrStr e
          | none => "Unknown error"
        let error_result : ConsultResult :=
          { success := false
            agent := some agent_name
            response := none
            error := some errMsg
            duration_ms := some 0
            cached := none
            available_agents := none }
        let record : ConsultationRecord :=
          { to_agent := agent_name
            query := query
            response := .failure error_result
            duration_ms := 0
            attempt := none
            error := some errMsg }
        (error_result,
         { st' with consultation_history := st'.consultation_history ++ [record] },
         out.events)

/-! ## Router data model (agent_router.py) -/

/-- The `agent_keywords` table built in `AgentRouter.__init__`.  Note that it
has no `gitlab_update` entry, although `_analyze_intent` indexes that key. -/
def defaultAgentKeywords : List (String × List String) :=
  [ ("test", ["test", "testing", "api test", "ui test", "integration test",
      "e2e test", "automation", "test case", "test suite", "run test",
      "execute test", "test endpoint", "test api", "validate"]),
    ("phoenix_expert", ["phoenix", "question", "how", "what", "why", "explain",
      "documentation", "code", "endpoint", "api", "controller",
      "model", "validation", "permission", "business logic",
      "architecture", "confluence", "knowledge"]),
    ("postman", ["postman", "collection", "export", "import", "generate collection",
      "postman collection", "api collection"]),
    ("environment_access", ["dev", "dev-2", "dev2", "environment", "access environment",
      "login", "portal", "navigate", "open dev", "open dev-2",
      "go to dev", "go to dev-2", "switch to dev", "switch to dev-2",
      "enter dev", "enter dev-2", "connect to dev", "connect to dev-2"]) ]

/-- Python `d[k]`: raises `KeyError` when the key is missing. -/
def getItem {V : Type} (d : List (String × V)) (k : String) : Except PyErr V :=
  match dictGet d k with
  | some v => .ok v
  | none => .error (.keyError k)

/-- The transient intent value `_analyze_intent` computes. -/
structure Intent where
  primary_intent : String
  intent_scores : List (String × Nat)
  confidence : ℚ
  requires_multiple_agents : Bool
deriving DecidableEq

/-- `sum(1 for keyword in kws if keyword in query_lower)`. -/
def keywordScore (kws : List String) (query_lower : String) : Nat :=
  (kws.filter (fun keyword => strContainsB query_lower keyword)).length

/-- Python `max(items, key=lambda x: x[1])[0]`: first key with maximal value. -/
def maxByValueKey (default : String) : List (String × Nat) → String
  | [] => default
  | (k, v) :: rest => (rest.foldl (fun best p => if p.2 > best.2 then p else best) (k, v)).1

/-- `AgentRouter._analyze_intent`.  With the default keyword table the lookup
of `gitlab_update` raises `KeyError`. -/
def analyze_intent (agent_keywords : List (String × List String)) (query : String) :
    Except PyErr Intent := do
  let query_lower := pyToLower query
  let test_score := keywordScore (← getItem agent_keywords "test") query_lower
  let phoenix_score := keywordScore (← getItem agent_keywords "phoenix_expert") query_lower
  let postman_score := keywordScore (← getItem agent_keywords "postman") query_lower
  let gitlab_update_score := keywordScore (← getItem agent_keywords "gitlab_update") query_lower
  let environment_access_score := keywordScore (← getItem agent_keywords "environment_access") query_lower
  let intent_scores : List (String × Nat) :=
    [("test", test_score), ("phoenix_expert", phoenix_score), ("postman", postman_score),
     ("gitlab_update", gitlab_update_score), ("environment_access", environment_access_score)]
  let primary_intent := maxByValueKey "general" intent_scores
  let max_score := (intent_scores.map (·.2)).foldl max 0
  let total_keywords := (intent_scores.map (·.2)).sum
  let confidence : ℚ := if total_keywords > 0 then (max_score : ℚ) / (total_keywords : ℚ) else 0
  return { primary_intent := primary_intent
           intent_scores := intent_scores
           confidence := confidence
           requires_multiple_agents :=
             max_score > 0 && (intent_scores.filter (fun s => s.2 > 0)).length > 1 }

/-- `AgentRouter._calculate_competence_score`. -/
def calculate_competence_score (agent : Agent) (query : String) (intent : Intent) : ℚ :=
  let agent_name := pyToLower agent.get_name
  let query_lower := pyToLower query
  -- Base score from can_help_with
  let score : ℚ := if agent.can_help_with query then 0.3 else 0
  -- Score based on agent name matching intent
  let primary_intent := intent.primary_intent
  let score :=
    if strContainsB agent_name "test" && primary_intent == "test" then score + 0.4
    else if strContainsB agent_name "phoenix" && primary_intent == "phoenix_expert" then score + 0.4
    else if strContainsB agent_name "postman" && primary_intent == "postman" then score + 0.4
    else if strContainsB agent_name "gitlab" && primary_intent == "gitlab_update" then score + 0.4
    else if strContainsB agent_name "environment" && primary_intent == "environment_access" then score + 0.4
    else score
  -- Score based on capabilities: +0.1 per capability containing a query word
  let score := score + 0.1 * ((agent.get_capabilities.filter
    (fun capability => (pySplit query_lower).any
      (fun keyword => strContainsB (pyToLower capability) keyword))).length : ℚ)
  min score 1

/-- One entry of the list `_find_competent_agents` builds. -/
structure AgentInfo where
  agent : Agent
  score : ℚ
  name : String

/-- `AgentRouter._find_competent_agents`. -/
def find_competent_agents (st : RegistryState) (query : String) (intent : Intent) :
    List AgentInfo :=
  let all_agents := st.agents.map (·.2)
  let agent_scores := all_agents.filterMap (fun agent =>
    if !agent.can_help_with query then none
    else
      let score := calculate_competence_score agent query intent
      if score > 0 then some ⟨agent, score, agent.get_name⟩ else none)
  let agent_scores := sortDescBy (fun x => x.score) agent_scores
  if agent_scores.length > 1 then agent_scores.take 3 else agent_scores

/-- One entry of the `agent_responses` list `_orchestrate_multiple_agents`
builds. -/
structure AgentResponse where
  agent : String
  score : ℚ
  response : Option PyData
  success : Bool
  error : Option String
deriving DecidableEq

/-- Entry of the `supplementary_responses` list. -/
structure SupplementaryResponse where
  agent : String
  response : PyData
  score : ℚ
deriving DecidableEq

/-- The dict `_combine_responses` returns (optional fields model keys present
only on some paths). -/
structure CombinedResponse where
  combined : Bool
  message : Option String
  errors : Option (List (Option String))
  primary_response : Option PyData
  source_agent : Option String
  primary_agent : Option String
  supplementary_responses : Option (List SupplementaryResponse)
  summary : Option String
  query : Option String
deriving DecidableEq

/-- `AgentRouter._combine_responses`. -/
def combine_responses (agent_responses : List AgentResponse) (query : String) :
    CombinedResponse :=
  let successful_responses := agent_responses.filter (fun r => r.success)
  match successful_responses with
  | [] =>
    { combined := false
      message := some "No successful agent responses to combine"
      errors := some ((agent_responses.filter (fun r => !r.success)).map (·.error))
      primary_response := none, source_agent := none, primary_agent := none
      supplementary_responses := none, summary := none, query := none }
  | [r] =>
    { combined := false
      primary_response := some (r.response.getD .emptyDict)
      source_agent := some r.agent
      message := none, errors := none, primary_agent := none
      supplementary_responses := none, summary := none, query := none }
  | r1 :: r2 :: rest =>
    -- Multiple successful responses - prioritize by agent score
    let sorted_responses := sortDescBy (fun x => x.score) (r1 :: r2 :: rest)
    let top := sorted_responses.headD r1
    { combined := true
      primary_response := some (top.response.getD .emptyDict)
      primary_agent := some top.agent
      supplementary_responses := some (sorted_responses.tail.map (fun r =>
        ⟨r.agent, r.response.getD .emptyDict, r.score⟩))
      summary := some ("Combined responses from " ++
        toString successful_responses.length ++ " agents")
      query := some query
      message := none, errors := none, source_agent := none }

/-- The dict `route_query` (and its two dispatch helpers) returns. -/
structure RouteResult where
  success : Bool
  routing_type : Option String
  agents_used : Option (List String)
  primary_agent : Option String
  response : Option PyData
  error : Option String
  query : Option String
  available_agents : Option (List String)
  agent_responses : Option (List AgentResponse)
  combined_response : Option CombinedResponse
deriving DecidableEq

/-- `AgentRouter._route_to_single_agent`. -/
def route_to_single_agent (st : RegistryState) (agent_info : AgentInfo)
    (query : String) (context : Option Ctx) :
    RouteResult × RegistryState × List Event :=
  let agent_name := agent_info.agent.get_name
  let (result, st', events) := consult_agent st agent_name query context none true
  ({ success := result.success
     routing_type := some "single"
     agents_used := some [agent_name]
     primary_agent := some agent_name
     response := some (result.response.getD .emptyDict)
     error := result.error
     query := some query
     available_agents := none, agent_responses := none, combined_response := none },
   st', events)

/-- `AgentRouter._orchestrate_multiple_agents`: consult every candidate in
ranked order, collecting one `AgentResponse` per agent regardless of
individual failure, then merge. -/
def orchestrate_multiple_agents (st : RegistryState) (agent_infos : List AgentInfo)
    (query : String) (context : Option Ctx) :
    RouteResult × RegistryState × List Event :=
  let step := fun (acc : RegistryState × List Event × List AgentResponse) (agent_info : AgentInfo) =>
    let (st, events, agent_responses) := acc
    let agent_name := agent_info.agent.get_name
    let (result, st', ev) := consult_agent st agent_name query context none true
    let r : AgentResponse :=
      if result.success then
        { agent := agent_name, score := agent_info.score
          response := some (result.response.getD .emptyDict), success := true, error := none }
      else
        { agent := agent_name, score := agent_info.score
          response := none, success := false
          error := some (result.error.getD "Unknown error") }
    (st', events ++ ev, agent_responses ++ [r])
  let (st', events, agent_responses) := agent_infos.foldl step (st, [], [])
  let agents_used := agent_infos.map (fun a => a.agent.get_name)
  let combined_response := combine_responses agent_responses query
  ({ success := agent_responses.any (fun r => r.success)
     routing_type := some "orchestrated"
     agents_used := some agents_used
     primary_agent := agents_used.head?
     agent_responses := some agent_responses
     combined_response := some combined_response
     query := some query
     response := none, error := none, available_agents := none },
   st', events)

/-- One entry of `routing_history` (timestamp abstracted away). -/
structure RoutingRecord where
  query : String
  intent : Intent
  agents_used : List String
  result : RouteResult

/-- Mutable state of an `AgentRouter` instance. -/
structure RouterState where
  registry : RegistryState
  agent_keywords : List (String × List String)
  routing_history : List RoutingRecord

/-- `AgentRouter.__init__` over a given registry. -/
def routerInit (registry : RegistryState) : RouterState :=
  { registry := registry
    agent_keywords := defaultAgentKeywords
    routing_history := [] }

/-- `AgentRouter.route_query`.  An exception raised by `_analyze_intent`
propagates to the caller (there is no handler around it in the source). -/
def route_query (router : RouterState) (query : String) (context : Option Ctx) :
    Except PyErr (RouteResult × RouterState × List Event) := do
  -- Step 1: Analyze query to determine intent
  let intent ← analyze_intent router.agent_keywords query
  -- Step 2: Find competent agents
  let competent_agents := find_competent_agents router.registry query intent
  match competent_agents with
  | [] =>
    return ({ success := false
              error := some "No agents found that can handle this query"
              available_agents := some (list_agents router.registry)
              query := some query
              routing_type := none, agents_used := none, primary_agent := none
              response := none, agent_responses := none, combined_response := none },
            router, [])
  | _ =>
    -- Step 3: Route to agent(s) and combine responses
    let (result, registry', events) :=
      match competent_agents with
      | [single] => route_to_single_agent router.registry single query context
      | infos => orchestrate_multiple_agents router.registry infos query context
    -- Step 4: Record routing history
    let record : RoutingRecord :=
      { query := query
        intent := intent
        agents_used := competent_agents.map (fun a => a.agent.get_name)
        result := result }
    return (result,
            { router with registry := registry'
                          routing_history := router.routing_history ++ [record] },
            events)

/-! ## Policy gate (global_rules.py) -/

/-- `PermissionStatus` enum. -/
inductive PermissionStatus where
  | granted
  | denied
  | pending
  | notRequired
deriving DecidableEq

/-- A recorded rule violation (timestamp abstracted away). -/
structure RuleViolation where
  rule : String
  operation : String
  operation_type : String
  details : Option (List (String × PyData))
  status : String
  message : String
deriving DecidableEq

/-- The dict `validate_operation` returns. -/
structure ValidationResult where
  permitted : Bool
  status : PermissionStatus
  message : String
  operation : String
  violation : Option RuleViolation
deriving DecidableEq

/-- Mutable state of a `GlobalRules` instance (the fields
`validate_operation` touches). -/
structure GlobalRulesState where
  rule_violations : List RuleViolation
  always_use_agents : Bool

/-- `GlobalRules.__init__`. -/
def globalRulesInit : GlobalRulesState :=
  { rule_violations := [], always_use_agents := true }

/-- Python truthiness of the optional `details` dict: `None` and `{}` are
falsy, a non-empty dict is truthy. -/
def detailsTruthy (details : Option (List (String × PyData))) : Bool :=
  match details with
  | none => false
  | some d => !d.isEmpty

/-- `details.get('agent_used', False)` as a boolean. -/
def agentUsedFlag (details : Option (List (String × PyData))) : Bool :=
  match details with
  | none => false
  | some d => pyTruthy ((dictGet d "agent_used").getD (.boolVal false))

/-- `GlobalRules.validate_operation`.  The guard is
`if details and not details.get('agent_used', False)`, so an absent or
*empty* details dict skips the violation branch entirely. -/
def validate_operation (st : GlobalRulesState) (operation_type operation : String)
    (details : Option (List (String × PyData))) : ValidationResult × GlobalRulesState :=
  if detailsTruthy details && !agentUsedFlag details then
    if st.always_use_agents then
      let violation : RuleViolation :=
        { rule := "always_use_agents"
          operation := operation
          operation_type := operation_type
          details := details
          status := "violation"
          message := "CRITICAL: Operation performed without using agents. This violates the ALWAYS USE AGENTS rule." }
      ({ permitted := false
         status := .denied
         message := "CRITICAL ERROR: Must use agents for this operation. This is a mandatory rule."
         operation := operation
         violation := some violation },
       { st with rule_violations := st.rule_violations ++ [violation] })
    else
      ({ permitted := true
         status := .notRequired
         message := "Operation does not require special permission"
         operation := operation
         violation := none }, st)
  else
    ({ permitted := true
       status := .notRequired
       message := "Operation does not require special permission"
       operation := operation
       violation := none }, st)

/-! ## Concrete fixtures used by witnesses and counterexamples -/

/-- An agent whose `consult` always returns normally. -/
def agentPing : Agent :=
  { get_name := "alpha"
    get_capabilities := ["testing"]
    can_help_with := fun _ => true
    consult := fun _ _ => .ok (.strVal "pong") }

/-- An agent whose `consult` raises on every invocation. -/
def agentBoom : Agent :=
  { get_name := "beta"
    get_capabilities := []
    can_help_with := fun _ => true
    consult := fun _ _ => .error (.otherError "boom") }

/-- An agent that can help with nothing in the query and has no history. -/
def agentZ : Agent :=
  { get_name := "zzz"
    get_capabilities := ["qqq"]
    can_help_with := fun _ => true
    consult := fun _ _ => .ok .pyNone }

def registryPing : RegistryState := registryInit [("alpha", agentPing)]

def registryBoom : RegistryState := registryInit [("beta", agentBoom)]

/-- `consult_agent` on a succeeding agent with `use_cache := false`
(while `enable_caching` is on): the configuration that trips over the
unassigned `cache_key` local. -/
def bugCall : ConsultResult × RegistryState × List Event :=
  consult_agent registryPing "alpha" "q" none none false

/-- Three competent agents of which exactly the second one succeeds. -/
def agentFailA : Agent :=
  { get_name := "a-tester", get_capabilities := []
    can_help_with := fun _ => true, consult := fun _ _ => .error (.otherError "fail-a") }

def agentOkB : Agent :=
  { get_name := "b-helper", get_capabilities := []
    can_help_with := fun _ => true, consult := fun _ _ => .ok (.strVal "answer-b") }

def agentFailC : Agent :=
  { get_name := "c-other", get_capabilities := []
    can_help_with := fun _ => true, consult := fun _ _ => .error (.otherError "fail-c") }

def registryThree : RegistryState :=
  registryInit [("a-tester", agentFailA), ("b-helper", agentOkB), ("c-other", agentFailC)]

def infosThree : List AgentInfo :=
  [⟨agentFailA, 0.8, "a-tester"⟩, ⟨agentOkB, 0.5, "b-helper"⟩, ⟨agentFailC, 0.4, "c-other"⟩]

def orchOut : RouteResult × RegistryState × List Event :=
  orchestrate_multiple_agents registryThree infosThree "help me" none

/-! ## Claim theorems -/

/-- C1.  The claim says `route_query` always returns a well-formed result and
no exception raised during intent classification escapes the Router.  In the
code, `_analyze_intent` indexes `self.agent_keywords['gitlab_update']` but
`__init__` never puts a `gitlab_update` key into that table, so **every**
`route_query` call on a router built by `__init__` raises an uncaught
`KeyError('gitlab_update')` before any agent is consulted — for every
registry, every query and every context. -/
theorem route_query_always_raises_keyError (reg : RegistryState) (query : String)
    (context : Option Ctx) :
    route_query (routerInit reg) query context =
      .error (.keyError "gitlab_update") := rfl

/-- C2.  The claim says every non-cached consultation appends exactly one
ConsultationRecord and performs exactly one performance update (success if the
agent's `consult` returned).  Failing input: `enable_caching = True`,
`use_cache = False`, an agent whose `consult` returns normally.  The success
path then evaluates the never-assigned local `cache_key`, raising
`UnboundLocalError` *inside* the retried `try:` block after the record/update
have been applied: the code performs 3 success records + 3 success updates +
1 failure record + 1 failure update (4 and 4), and returns `success: False`
even though the agent answered every time. -/
theorem consult_agent_unbound_cache_key :
    agentPing.consult "q" [] = Except.ok (.strVal "pong")
    ∧ bugCall.1.success = false
    ∧ bugCall.1.error =
        some "local variable \x27cache_key\x27 referenced before assignment"
    ∧ bugCall.2.1.consultation_history.length = 4
    ∧ bugCall.2.1.agent_performance.map (fun p =>
        (p.1, p.2.total_consultations, p.2.successful_consultations,
         p.2.failed_consultations)) = [("alpha", 4, 3, 1)]
    ∧ bugCall.2.2 = [.invoke "alpha" 1, .sleep 1, .invoke "alpha" 2, .sleep 2,
        .invoke "alpha" 3]
    ∧ bugCall.2.1.consultation_cache = [] :=
  ⟨rfl, by decide, by decide, by decide, by decide, by decide, by decide⟩

/-- C7.  The claim describes `route()` on 3 competent agents with exactly one
success.  `route_query` never gets there: it raises
`KeyError('gitlab_update')` during intent analysis (the C1 bug) before
consulting anyone.  The orchestration layer underneath (the claim's cited
code) does satisfy the property: all three candidates are consulted despite
the first one failing, overall success is true, and the combined response has
`combined: false` with the single success's payload as `primary_response`. -/
theorem orchestration_partial_success :
    route_query (routerInit registryThree) "help me" none =
      .error (.keyError "gitlab_update")
    ∧ orchOut.1.success = true
    ∧ orchOut.1.routing_type = some "orchestrated"
    ∧ orchOut.1.agents_used = some ["a-tester", "b-helper", "c-other"]
    ∧ orchOut.1.agent_responses.map (List.map (fun r => (r.agent, r.success))) =
        some [("a-tester", false), ("b-helper", true), ("c-other", false)]
    ∧ orchOut.1.combined_response.map (fun c => c.combined) = some false
    ∧ orchOut.1.combined_response.bind (fun c => c.primary_response) =
        some (.strVal "answer-b")
    ∧ orchOut.1.combined_response.bind (fun c => c.source_agent) = some "b-helper"
    ∧ (orchOut.2.2.filter (fun e => e.isInvoke)).length = 7 :=
  ⟨rfl, by decide, by decide, by decide, by decide, by decide, by decide, by decide,
   by decide⟩

/-- C4 counterexample.  The claim says an agent passing `can_help_with` with
no name overlap, no capability overlap and no history scores
`0.3 + 0.2 × 0.5 = 0.4`.  In the code the historical term is guarded by
`if agent_name in self._agent_performance`, so a no-history agent gets no
term at all and scores exactly `0.3`. -/
theorem relevance_score_no_history_counterexample :
    calculate_relevance_score [] agentZ "hello there" = 0.3
    ∧ ((find_helpful_agents (registryInit [("zzz", agentZ)]) "hello there").map
        (fun x => x.2)) = [0.3]
    ∧ (0.3 : ℚ) ≠ 0.4 := by
  have h1 : ((pySplit "hello there").filter
      (fun word => strContainsB (pyToLower agentZ.get_name) word)).length = 0 := by decide
  have h2 : ((agentZ.get_capabilities.filter
      (fun cap => (pySplit "hello there").any
        (fun word => strContainsB (pyToLower cap) word))).length) = 0 := by decide
  have h3 : dictGet ([] : List (String × AgentPerformance)) agentZ.get_name = none := rfl
  have hscore : calculate_relevance_score [] agentZ "hello there" = 0.3 := by
    simp only [calculate_relevance_score, h1, h2, h3]
    norm_num
  refine ⟨hscore, ?_, by norm_num⟩
  have : pyToLower "hello there" = "hello there" := by decide
  simp only [find_helpful_agents, registryInit, sortDescBy, this]
  simp only [List.map_cons, List.map_nil, List.filterMap, agentZ]
  simp only [List.insertionSort, List.orderedInsert, List.map_cons, List.map_nil]
  exact congrArg (fun q => [q]) hscore

/-- C4 (amended).  An agent with no entry in `_agent_performance` receives no
historical-performance term at all (the `0.5` default inside `perf.get` is
unreachable for absent entries); an agent with no name-word overlap and no
capability overlap and no history scores exactly `0.3`. -/
theorem relevance_score_no_history (performance : List (String × AgentPerformance))
    (agent : Agent) (query_lower : String)
    (hperf : dictGet performance agent.get_name = none)
    (hname : ((pySplit query_lower).filter
      (fun word => strContainsB (pyToLower agent.get_name) word)).length = 0)
    (hcap : ((agent.get_capabilities.filter
      (fun cap => (pySplit query_lower).any
        (fun word => strContainsB (pyToLower cap) word))).length) = 0) :
    calculate_relevance_score performance agent query_lower = 0.3 := by
  simp only [calculate_relevance_score, hperf, hname, hcap]
  norm_num

/-- C4 witness: the amended theorem applied at a concrete no-history,
no-overlap agent. -/
theorem relevance_score_no_history_witness :
    dictGet ([] : List (String × AgentPerformance)) agentZ.get_name = none
    ∧ calculate_relevance_score [] agentZ "hello there" = 0.3 :=
  ⟨rfl, relevance_score_no_history [] agentZ "hello there" rfl (by decide) (by decide)⟩

/-- C5 counterexample.  The claim says `validate_operation` denies whenever
`agent_used` is absent or false, *including when details is empty or not
supplied*.  The guard is `if details and not details.get('agent_used', False)`,
so `details = None` and `details = {}` are falsy and the operation is
permitted with no violation recorded. -/
theorem validate_operation_empty_details_counterexample :
    (validate_operation globalRulesInit "file_write" "write file" none).1.permitted = true
    ∧ (validate_operation globalRulesInit "file_write" "write file" none).2.rule_violations = []
    ∧ (validate_operation globalRulesInit "file_write" "write file" (some [])).1.permitted = true
    ∧ (validate_operation globalRulesInit "file_write" "write file"
        (some [])).2.rule_violations = [] :=
  ⟨rfl, rfl, rfl, rfl⟩

/-- C5 (amended).  With `always_use_agents` set (as `__init__` leaves it),
`validate_operation` denies **iff** `details` is supplied and non-empty and
its `agent_used` flag is absent or falsy; each denial appends exactly one
violation entry; every permitted call leaves the violations list unchanged.
Empty or missing `details` is permitted without a violation. -/
theorem validate_operation_spec (st : GlobalRulesState)
    (operation_type operation : String)
    (details : Option (List (String × PyData)))
    (halways : st.always_use_agents = true) :
    ((validate_operation st operation_type operation details).1.permitted = false
      ↔ (detailsTruthy details = true ∧ agentUsedFlag details = false))
    ∧ ((validate_operation st operation_type operation details).1.permitted = false →
        (validate_operation st operation_type operation details).2.rule_violations.length
          = st.rule_violations.length + 1)
    ∧ ((validate_operation st operation_type operation details).1.permitted = true →
        (validate_operation st operation_type operation details).2.rule_violations
          = st.rule_violations) := by
  unfold validate_operation
  rcases hd : detailsTruthy details <;> rcases ha : agentUsedFlag details <;>
    simp [hd, ha, halways]

/-- C5 witness: a non-empty details dict without the `agent_used` flag is
denied and records exactly one violation on a fresh `GlobalRules`. -/
theorem validate_operation_spec_witness :
    globalRulesInit.always_use_agents = true
    ∧ ((validate_operation globalRulesInit "file_write" "write file"
        (some [("x", .natVal 1)])).1.permitted = false
      ↔ (detailsTruthy (some [("x", .natVal 1)]) = true
          ∧ agentUsedFlag (some [("x", .natVal 1)]) = false)) :=
  ⟨rfl, (validate_operation_spec globalRulesInit "file_write" "write file"
    (some [("x", .natVal 1)]) rfl).1⟩

/-- The performance map after one success and one failure for agent `a`:
its entry has `success_rate = 0.5` even though it received two updates. -/
def perfAfterTwo : List (String × AgentPerformance) :=
  update_agent_performance (update_agent_performance [] "a" true) "a" false

/-- C10 counterexample.  The claim's parenthetical says `success_rate` is
`0.5` *only* for an entry that has received no update.  After one success and
one failure the tracked entry has `total_consultations = 2` (two updates) and
`success_rate = 1/2 = 0.5`. -/
theorem success_rate_half_after_updates_counterexample :
    perfAfterTwo.map (fun p => (p.1, p.2.total_consultations,
      p.2.successful_consultations, p.2.failed_consultations)) = [("a", 2, 1, 1)]
    ∧ perfAfterTwo.map (fun p => p.2.success_rate) = [0.5]
    ∧ (2 : Nat) ≠ 0 := by
  refine ⟨by decide, ?_, by decide⟩
  norm_num [perfAfterTwo, update_agent_performance, dictGet, dictSet,
    performanceStep, initialPerformance]

/-! ## Association-list helper lemmas -/

theorem dictGet_cons {K V : Type} [DecidableEq K] (k0 : K) (v0 : V) (tl : List (K × V))
    (k : K) : dictGet ((k0, v0) :: tl) k = if k0 = k then some v0 else dictGet tl k := rfl

theorem dictGet_map_update {K V : Type} [DecidableEq K] (d : List (K × V)) (k k' : K)
    (f : V → V) :
    dictGet (d.map (fun p => if p.1 = k then (k, f p.2) else p)) k'
      = if k' = k then (dictGet d k').map f else dictGet d k' := by
  induction d with
  | nil => simp [dictGet]
  | cons hd tl ih =>
    obtain ⟨k0, v0⟩ := hd
    rw [List.map_cons]
    by_cases h0 : k0 = k
    · rw [show (if (k0, v0).1 = k then (k, f (k0, v0).2) else (k0, v0)) = (k, f v0) by
        simp [h0]]
      subst h0
      rw [dictGet_cons, dictGet_cons, ih]
      by_cases h1 : k0 = k'
      · subst h1
        simp
      · simp [h1, Ne.symm h1]
    · rw [show (if (k0, v0).1 = k then (k, f (k0, v0).2) else (k0, v0)) = (k0, v0) by
        simp [h0]]
      rw [dictGet_cons, dictGet_cons, ih]
      by_cases h2 : k0 = k'
      · subst h2
        simp [h0]
      · simp [h2]

theorem dictGet_append {K V : Type} [DecidableEq K] (d1 d2 : List (K × V)) (k : K) :
    dictGet (d1 ++ d2) k
      = match dictGet d1 k with
        | some v => some v
        | none => dictGet d2 k := by
  induction d1 with
  | nil => simp [dictGet]
  | cons hd tl ih =>
    obtain ⟨k0, v0⟩ := hd
    by_cases h : k0 = k <;> simp [dictGet_cons, h, ih]

theorem dictGet_dictSet_self {K V : Type} [DecidableEq K] (d : List (K × V)) (k : K) (v : V) :
    dictGet (dictSet d k v) k = some v := by
  unfold dictSet
  rcases h : dictGet d k with _ | w
  · simp only [h, Option.isSome_none, Bool.false_eq_true, if_false]
    rw [dictGet_append, h]
    simp [dictGet]
  · simp only [h, Option.isSome_some, if_true]
    have h2 := dictGet_map_update d k k (fun _ => v)
    simp only [if_pos rfl, h] at h2
    exact h2

theorem dictGet_dictSet_ne {K V : Type} [DecidableEq K] (d : List (K × V)) (k k' : K)
    (v : V) (h : k' ≠ k) : dictGet (dictSet d k v) k' = dictGet d k' := by
  unfold dictSet
  split
  · have h2 := dictGet_map_update d k k' (fun _ => v)
    simp only [if_neg h] at h2
    exact h2
  · rw [dictGet_append]
    rcases h2 : dictGet d k' with _ | w
    · simp [dictGet_cons, dictGet, Ne.symm h]
    · simp

/-- Lookup after `_update_agent_performance`: the touched agent's entry is
the stepped old entry (or stepped fresh entry), everything else unchanged. -/
theorem dictGet_update_agent_performance (m : List (String × AgentPerformance))
    (n : String) (s : Bool) (nm : String) :
    dictGet (update_agent_performance m n s) nm
      = if nm = n then some (performanceStep ((dictGet m n).getD initialPerformance) s)
        else dictGet m nm := by
  unfold update_agent_performance
  rcases hm : dictGet m n with _ | p
  · simp only [hm, Option.isSome_none, Bool.false_eq_true, if_false]
    rw [dictGet_map_update (dictSet m n initialPerformance) n nm
      (fun q => performanceStep q s)]
    by_cases h : nm = n
    · subst h
      rw [dictGet_dictSet_self]
      simp
    · rw [dictGet_dictSet_ne _ _ _ _ h]
      simp [h]
  · simp only [hm, Option.isSome_some, if_true]
    rw [dictGet_map_update m n nm (fun q => performanceStep q s)]
    by_cases h : nm = n <;> simp [h, hm]

/-- What one `_update_agent_performance` step does to an entry whose counters
are consistent. -/
theorem performanceStep_spec (q : AgentPerformance) (s : Bool)
    (hq : q.total_consultations = q.successful_consultations + q.failed_consultations) :
    (performanceStep q s).total_consultations
        = (performanceStep q s).successful_consultations
          + (performanceStep q s).failed_consultations
    ∧ 0 < (performanceStep q s).total_consultations
    ∧ (performanceStep q s).success_rate
        = ((performanceStep q s).successful_consultations : ℚ)
          / ((performanceStep q s).total_consultations : ℚ) := by
  unfold performanceStep
  rcases s <;> simp <;> omega

/-- The counter-consistency invariant of the `_agent_performance` map. -/
def PerfInv (m : List (String × AgentPerformance)) : Prop :=
  ∀ nm p, dictGet m nm = some p →
    p.total_consultations = p.successful_consultations + p.failed_consultations
    ∧ 0 < p.total_consultations
    ∧ p.success_rate
        = (p.successful_consultations : ℚ) / (p.total_consultations : ℚ)

theorem update_agent_performance_preserves_inv (m : List (String × AgentPerformance))
    (n : String) (s : Bool) (hm : PerfInv m) :
    PerfInv (update_agent_performance m n s) := by
  intro nm p hget
  rw [dictGet_update_agent_performance] at hget
  by_cases h : nm = n
  · simp only [h, if_true, Option.some.injEq] at hget
    subst hget
    apply performanceStep_spec
    rcases hq : dictGet m n with _ | q
    · simp [hq, initialPerformance]
    · simpa [hq] using (hm n q hq).1
  · simp only [h, if_false] at hget
    exact hm nm p hget

theorem perf_inv_foldl (updates : List (String × Bool)) :
    ∀ m, PerfInv m →
      PerfInv (updates.foldl (fun m u => update_agent_performance m u.1 u.2) m) := by
  induction updates with
  | nil => intro m hm; exact hm
  | cons u rest ih =>
    intro m hm
    exact ih _ (update_agent_performance_preserves_inv m u.1 u.2 hm)

/-- C10 (amended).  After every sequence of `_update_agent_performance` calls
starting from the empty map, every tracked entry satisfies
`total = successful + failed` and `success_rate = successful / total`
(every tracked entry has received at least one update, so `total > 0`
always holds and the rate is always the ratio; the initialisation value
`0.5` is not reserved to untouched entries — a 1-success/1-failure entry
also has rate `0.5`). -/
theorem agent_performance_counters_consistent (updates : List (String × Bool))
    (nm : String) (p : AgentPerformance)
    (hget : dictGet (updates.foldl
        (fun m u => update_agent_performance m u.1 u.2) []) nm = some p) :
    p.total_consultations = p.successful_consultations + p.failed_consultations
    ∧ 0 < p.total_consultations
    ∧ p.success_rate
        = (p.successful_consultations : ℚ) / (p.total_consultations : ℚ) := by
  refine perf_inv_foldl updates [] ?_ nm p hget
  intro nm' p' hc
  simp [dictGet] at hc

/-- C10 witness: the amended invariant applied to the concrete update
sequence one-success-then-one-failure for agent `a`. -/
theorem agent_performance_counters_consistent_witness :
    dictGet ([("a", true), ("a", false)].foldl
        (fun m u => update_agent_performance m u.1 u.2) []) "a"
      = some (performanceStep (performanceStep initialPerformance true) false)
    ∧ ((performanceStep (performanceStep initialPerformance true) false).total_consultations
        = (performanceStep (performanceStep initialPerformance true) false).successful_consultations
          + (performanceStep (performanceStep initialPerformance true) false).failed_consultations
      ∧ 0 < (performanceStep (performanceStep initialPerformance true) false).total_consultations
      ∧ (performanceStep (performanceStep initialPerformance true) false).success_rate
          = ((performanceStep (performanceStep initialPerformance true) false).successful_consultations : ℚ)
            / ((performanceStep (performanceStep initialPerformance true) false).total_consultations : ℚ)) :=
  ⟨rfl, agent_performance_counters_consistent [("a", true), ("a", false)] "a"
    (performanceStep (performanceStep initialPerformance true) false) rfl⟩

/-- If the retry loop exits with a result (the success path), the final state
has that exact result cached under the consultation's key, and the agents
table and caching flag are untouched. -/
theorem attemptLoop_success_cached (agent : Agent) (n q : String) (ctx : Ctx)
    (k : CacheKey) :
    ∀ (fuel : Nat) (st : RegistryState) (attempt : Nat),
      st.enable_caching = true →
      ∀ r, (attemptLoop agent n q ctx (some k) st attempt fuel).result = some r →
        dictGet (attemptLoop agent n q ctx (some k) st attempt fuel).st.consultation_cache k
            = some r
        ∧ (attemptLoop agent n q ctx (some k) st attempt fuel).st.agents = st.agents
        ∧ (attemptLoop agent n q ctx (some k) st attempt fuel).st.enable_caching = true := by
  intro fuel
  induction fuel with
  | zero =>
    intro st attempt hen r hres
    simp only [attemptLoop] at hres ⊢
    rcases hc : agent.consult q ctx with e | response
    · simp [consultStep, hc] at hres
    · simp only [consultStep, hc, successProcess] at hres ⊢
      simp only [hen, if_true] at hres ⊢
      simp only [Option.some.injEq] at hres
      subst hres
      exact ⟨by simp [cache_result, dictGet_dictSet_self], trivial, trivial⟩
  | succ fuel ih =>
    intro st attempt hen r hres
    simp only [attemptLoop] at hres ⊢
    rcases hc : agent.consult q ctx with e | response
    · simp only [consultStep, hc] at hres ⊢
      exact ih st (attempt + 1) hen r hres
    · simp only [consultStep, hc, successProcess] at hres ⊢
      simp only [hen, if_true] at hres ⊢
      simp only [Option.some.injEq] at hres
      subst hres
      exact ⟨by simp [cache_result, dictGet_dictSet_self], trivial, trivial⟩

/-- C3 (amended).  With caching enabled and `use_cache=True`, when the first
`consult_agent` call returns a success, a second identical call returns
exactly the stored first result (bit-identical, so with the `cached` field
as stored — the success path always stores `cached: False`, never `True`),
leaves the registry state unchanged (zero additional ConsultationRecords)
and performs zero agent invocations and zero sleeps. -/
theorem consult_agent_cache_determinism (st : RegistryState) (n q : String)
    (c : Option Ctx) (t1 t2 : Option Nat)
    (henable : st.enable_caching = true)
    (hsucc : (consult_agent st n q c t1 true).1.success = true) :
    consult_agent (consult_agent st n q c t1 true).2.1 n q c t2 true
      = ((consult_agent st n q c t1 true).1, (consult_agent st n q c t1 true).2.1, []) := by
  rcases hag : get_agent st n with _ | agent
  · exfalso
    simp [consult_agent, hag] at hsucc
  · rcases hhit : dictGet st.consultation_cache (get_cache_key n q c) with _ | r
    · -- cache miss on the first call
      rcases hres : (attemptLoop agent n q (c.getD []) (some (get_cache_key n q c)) st 0
          st.max_retries).result with _ | result
      · exfalso
        simp only [consult_agent, hag, henable, Bool.true_and, if_true, hhit, hres] at hsucc
        simp at hsucc
      · have hkey := attemptLoop_success_cached agent n q (c.getD []) (get_cache_key n q c)
          st.max_retries st 0 henable result hres
        have hfirst : consult_agent st n q c t1 true
            = (result,
               (attemptLoop agent n q (c.getD []) (some (get_cache_key n q c)) st 0
                 st.max_retries).st,
               (attemptLoop agent n q (c.getD []) (some (get_cache_key n q c)) st 0
                 st.max_retries).events) := by
          simp only [consult_agent, hag, henable, Bool.true_and, if_true, hhit, hres]
        rw [hfirst]
        have hag2 : get_agent (attemptLoop agent n q (c.getD [])
            (some (get_cache_key n q c)) st 0 st.max_retries).st n = some agent := by
          unfold get_agent at hag ⊢
          rw [hkey.2.1, hag]
        simp only [consult_agent, hag2, hkey.2.2, Bool.true_and, if_true, hkey.1]
    · -- cache hit already on the first call
      have hfirst : consult_agent st n q c t1 true = (r, st, []) := by
        simp only [consult_agent, hag, henable, Bool.true_and, if_true, hhit]
      rw [hfirst]
      simp only [consult_agent, hag, henable, Bool.true_and, if_true, hhit]

/-- The terminal failure result `consult_agent` builds after exhausting
retries with last exception `e`. -/
def retryFailureResult (n : String) (e : PyErr) : ConsultResult :=
  { success := false
    agent := some n
    response := none
    error := some (pyErrStr e)
    duration_ms := some 0
    cached := none
    available_agents := none }

/-- The single ConsultationRecord appended for an exhausted consultation. -/
def retryFailureRecord (n q : String) (e : PyErr) : ConsultationRecord :=
  { to_agent := n
    query := q
    response := .failure (retryFailureResult n e)
    duration_ms := 0
    attempt := none
    error := some (pyErrStr e) }

/-- C6.  With `max_retries = 2`, a consultation of a registered agent whose
`consult` raises, not served from the cache, makes exactly 3 invocations with
backoff sleeps of `2^0 = 1` and `2^1 = 2` seconds between them, appends
exactly one ConsultationRecord capturing the final failure, applies exactly
one failure performance update (failure counter +1), and returns a failure
result that is not written to the cache. -/
theorem consult_agent_retry_bound (st : RegistryState) (agent : Agent) (n q : String)
    (c : Option Ctx) (t : Option Nat) (use_cache : Bool) (e : PyErr)
    (hagent : get_agent st n = some agent)
    (hfail : agent.consult q (c.getD []) = .error e)
    (hretries : st.max_retries = 2)
    (hnohit : (st.enable_caching && use_cache) = true →
      dictGet st.consultation_cache (get_cache_key n q c) = none) :
    (consult_agent st n q c t use_cache).2.2
        = [.invoke n 1, .sleep 1, .invoke n 2, .sleep 2, .invoke n 3]
    ∧ (consult_agent st n q c t use_cache).1 = retryFailureResult n e
    ∧ (consult_agent st n q c t use_cache).1.success = false
    ∧ (consult_agent st n q c t use_cache).2.1.consultation_history
        = st.consultation_history ++ [retryFailureRecord n q e]
    ∧ (consult_agent st n q c t use_cache).2.1.agent_performance
        = update_agent_performance st.agent_performance n false
    ∧ (dictGet (consult_agent st n q c t use_cache).2.1.agent_performance n).map
          (fun p => p.failed_consultations)
        = some (((dictGet st.agent_performance n).map
            (fun p => p.failed_consultations)).getD 0 + 1)
    ∧ (consult_agent st n q c t use_cache).2.1.consultation_cache
        = st.consultation_cache := by
  have hloop : ∀ ck, attemptLoop agent n q (c.getD []) ck st 0 2
      = ⟨none, some e, st, [.invoke n 1, .sleep 1, .invoke n 2, .sleep 2, .invoke n 3]⟩ := by
    intro ck
    simp only [attemptLoop, consultStep, hfail]
    norm_num
  have hget : (dictGet (update_agent_performance st.agent_performance n false) n).map
        (fun p => p.failed_consultations)
      = some (((dictGet st.agent_performance n).map
          (fun p => p.failed_consultations)).getD 0 + 1) := by
    rw [dictGet_update_agent_performance]
    simp only [if_pos rfl]
    rcases hp : dictGet st.agent_performance n with _ | p <;>
      simp [performanceStep, initialPerformance, hp]
  rcases hb : st.enable_caching && use_cache with _ | _
  · have hfull : consult_agent st n q c t use_cache
        = (retryFailureResult n e,
           { st with
              agent_performance := update_agent_performance st.agent_performance n false,
              consultation_history := st.consultation_history ++ [retryFailureRecord n q e] },
           [.invoke n 1, .sleep 1, .invoke n 2, .sleep 2, .invoke n 3]) := by
      simp only [consult_agent, hagent, hb, hretries, if_false, hloop,
        retryFailureResult, retryFailureRecord]
      simp
    rw [hfull]
    exact ⟨rfl, rfl, rfl, rfl, rfl, hget, rfl⟩
  · have hhit := hnohit hb
    have hfull : consult_agent st n q c t use_cache
        = (retryFailureResult n e,
           { st with
              agent_performance := update_agent_performance st.agent_performance n false,
              consultation_history := st.consultation_history ++ [retryFailureRecord n q e] },
           [.invoke n 1, .sleep 1, .invoke n 2, .sleep 2, .invoke n 3]) := by
      simp only [consult_agent, hagent, hb, hretries, if_true, hhit, hloop,
        retryFailureResult, retryFailureRecord]
    rw [hfull]
    exact ⟨rfl, rfl, rfl, rfl, rfl, hget, rfl⟩

/-- C3 counterexample.  The claim requires the second call's result to carry
`cached: true`.  The code caches the success result verbatim — including its
`cached: False` field — and returns the stored dict unchanged on a hit, so
the second call reports `cached: False`. -/
theorem cached_flag_never_true_counterexample :
    (consult_agent (consult_agent registryPing "alpha" "q" none none true).2.1
        "alpha" "q" none none true).1.cached = some false
    ∧ (some false : Option Bool) ≠ some true :=
  ⟨by decide, by decide⟩

/-- C3 witness: the amended cache-determinism theorem applied to a concrete
one-agent registry. -/
theorem consult_agent_cache_determinism_witness :
    registryPing.enable_caching = true
    ∧ (consult_agent registryPing "alpha" "q" none none true).1.success = true
    ∧ consult_agent (consult_agent registryPing "alpha" "q" none none true).2.1
          "alpha" "q" none none true
        = ((consult_agent registryPing "alpha" "q" none none true).1,
           (consult_agent registryPing "alpha" "q" none none true).2.1, []) :=
  ⟨rfl, by decide,
   consult_agent_cache_determinism registryPing "alpha" "q" none none none rfl (by decide)⟩

/-- C6 witness: the retry-bound theorem applied to a concrete registry with a
permanently raising agent. -/
theorem consult_agent_retry_bound_witness :
    get_agent registryBoom "beta" = some agentBoom
    ∧ agentBoom.consult "q" ((none : Option Ctx).getD []) = .error (.otherError "boom")
    ∧ registryBoom.max_retries = 2
    ∧ ((consult_agent registryBoom "beta" "q" none none true).2.2
          = [.invoke "beta" 1, .sleep 1, .invoke "beta" 2, .sleep 2, .invoke "beta" 3]
      ∧ (consult_agent registryBoom "beta" "q" none none true).1
          = retryFailureResult "beta" (.otherError "boom")
      ∧ (consult_agent registryBoom "beta" "q" none none true).1.success = false
      ∧ (consult_agent registryBoom "beta" "q" none none true).2.1.consultation_history
          = registryBoom.consultation_history
            ++ [retryFailureRecord "beta" "q" (.otherError "boom")]
      ∧ (consult_agent registryBoom "beta" "q" none none true).2.1.agent_performance
          = update_agent_performance registryBoom.agent_performance "beta" false
      ∧ (dictGet (consult_agent registryBoom "beta" "q" none none true).2.1.agent_performance
            "beta").map (fun p => p.failed_consultations)
          = some (((dictGet registryBoom.agent_performance "beta").map
              (fun p => p.failed_consultations)).getD 0 + 1)
      ∧ (consult_agent registryBoom "beta" "q" none none true).2.1.consultation_cache
          = registryBoom.consultation_cache) :=
  ⟨rfl, rfl, rfl,
   consult_agent_retry_bound registryBoom agentBoom "beta" "q" none none true
     (.otherError "boom") rfl rfl rfl (fun _ => rfl)⟩

theorem sortDescBy_perm {α : Type} (key : α → ℚ) (l : List α) :
    (sortDescBy key l).Perm l :=
  List.perm_insertionSort _ l

theorem sortDescBy_sorted {α : Type} (key : α → ℚ) (l : List α) :
    (sortDescBy key l).Pairwise (fun a b => key b ≤ key a) := by
  haveI : IsTotal α (fun a b => key b ≤ key a) := ⟨fun a b => le_total (key b) (key a)⟩
  haveI : IsTrans α (fun a b => key b ≤ key a) :=
    ⟨fun a b c h1 h2 => le_trans h2 h1⟩
  exact List.sorted_insertionSort _ l

/-- C8.  `_combine_responses`: 0 successes → `combined: false` and every
failed response's error collected; exactly 1 success → `combined: false`
with that success's payload as `primary_response`; ≥2 successes →
`combined: true`, primary taken from a maximal-score success, and the
remaining successes listed in `supplementary_responses` in descending score
order, each tagged with agent name, payload and score. -/
theorem combine_responses_spec (agent_responses : List AgentResponse) (query : String) :
    ((agent_responses.filter (fun r => r.success)) = [] →
      (combine_responses agent_responses query).combined = false
      ∧ (combine_responses agent_responses query).errors
          = some ((agent_responses.filter (fun r => !r.success)).map (fun r => r.error)))
    ∧ (∀ r, (agent_responses.filter (fun r => r.success)) = [r] →
      (combine_responses agent_responses query).combined = false
      ∧ (combine_responses agent_responses query).primary_response
          = some (r.response.getD .emptyDict)
      ∧ (combine_responses agent_responses query).source_agent = some r.agent)
    ∧ (2 ≤ (agent_responses.filter (fun r => r.success)).length →
      (combine_responses agent_responses query).combined = true
      ∧ ∃ top rest,
          (top :: rest).Perm (agent_responses.filter (fun r => r.success))
          ∧ (combine_responses agent_responses query).primary_agent = some top.agent
          ∧ (combine_responses agent_responses query).primary_response
              = some (top.response.getD .emptyDict)
          ∧ (combine_responses agent_responses query).supplementary_responses
              = some (rest.map (fun r =>
                  ⟨r.agent, r.response.getD .emptyDict, r.score⟩))
          ∧ (∀ r ∈ agent_responses.filter (fun r => r.success), r.score ≤ top.score)
          ∧ rest.Pairwise (fun a b => b.score ≤ a.score)) := by
  rcases hs : agent_responses.filter (fun r => r.success) with _ | ⟨r1, _ | ⟨r2, rest0⟩⟩
  · refine ⟨fun _ => ?_, fun r hr => ?_, fun h2 => ?_⟩
    · simp [combine_responses, hs]
    · rw [hs] at hr
      simp at hr
    · rw [hs] at h2
      simp at h2
  · refine ⟨fun h0 => ?_, fun r hr => ?_, fun h2 => ?_⟩
    · rw [hs] at h0
      simp at h0
    · rw [hs] at hr
      injection hr with h1 _
      subst h1
      simp [combine_responses, hs]
    · rw [hs] at h2
      simp at h2
  · refine ⟨fun h0 => ?_, fun r hr => ?_, fun _ => ?_⟩
    · rw [hs] at h0
      simp at h0
    · rw [hs] at hr
      simp at hr
    · have hperm := sortDescBy_perm (fun x => x.score) (r1 :: r2 :: rest0)
      have hsorted := sortDescBy_sorted (fun x => x.score) (r1 :: r2 :: rest0)
      rcases hsd : sortDescBy (fun x => x.score) (r1 :: r2 :: rest0) with _ | ⟨top, tail⟩
      · exfalso
        rw [hsd] at hperm
        have := hperm.length_eq
        simp at this
      · rw [hsd] at hperm hsorted
        constructor
        · simp [combine_responses, hs, hsd]
        · refine ⟨top, tail, ?_, ?_, ?_, ?_, ?_, ?_⟩
          · rw [hs]
            exact hperm
          · simp [combine_responses, hs, hsd]
          · simp [combine_responses, hs, hsd]
          · simp [combine_responses, hs, hsd]
          · intro r hr
            rw [hs] at hr
            have hr2 : r ∈ top :: tail := hperm.mem_iff.mpr hr
            rcases List.mem_cons.mp hr2 with h3 | hr3
            · subst h3
              exact le_refl _
            · exact (List.pairwise_cons.mp hsorted).1 r hr3
          · exact (List.pairwise_cons.mp hsorted).2

def respLow : AgentResponse :=
  { agent := "low", score := 0.6, response := some (.strVal "r-low"),
    success := true, error := none }

def respHigh : AgentResponse :=
  { agent := "high", score := 0.9, response := some (.strVal "r-high"),
    success := true, error := none }

/-- C8 witness: the merge theorem applied to two successful responses with
scores 0.9 and 0.6. -/
theorem combine_responses_spec_witness :
    2 ≤ ([respLow, respHigh].filter (fun r => r.success)).length
    ∧ ((combine_responses [respLow, respHigh] "q").combined = true
      ∧ ∃ top rest,
          (top :: rest).Perm ([respLow, respHigh].filter (fun r => r.success))
          ∧ (combine_responses [respLow, respHigh] "q").primary_agent = some top.agent
          ∧ (combine_responses [respLow, respHigh] "q").primary_response
              = some (top.response.getD .emptyDict)
          ∧ (combine_responses [respLow, respHigh] "q").supplementary_responses
              = some (rest.map (fun r =>
                  ⟨r.agent, r.response.getD .emptyDict, r.score⟩))
          ∧ (∀ r ∈ [respLow, respHigh].filter (fun r => r.success), r.score ≤ top.score)
          ∧ rest.Pairwise (fun a b => b.score ≤ a.score)) :=
  ⟨by decide, (combine_responses_spec [respLow, respHigh] "q").2.2 (by decide)⟩

theorem dictSet_length {K V : Type} [DecidableEq K] (d : List (K × V)) (k : K) (v : V) :
    (dictSet d k v).length
      = if (dictGet d k).isSome then d.length else d.length + 1 := by
  unfold dictSet
  split <;> simp [*]

theorem keys_map_update {K V : Type} [DecidableEq K] (d : List (K × V)) (k : K) (v : V) :
    (d.map (fun p => if p.1 = k then (k, v) else p)).map Prod.fst = d.map Prod.fst := by
  induction d with
  | nil => rfl
  | cons hd tl ih =>
    obtain ⟨k0, v0⟩ := hd
    by_cases h : k0 = k <;> simp [h, ih]

theorem mem_keys_dictSet {K V : Type} [DecidableEq K] (d : List (K × V)) (k : K) (v : V)
    (a : K) (h : a ∈ d.map Prod.fst) : a ∈ (dictSet d k v).map Prod.fst := by
  unfold dictSet
  split
  · rw [keys_map_update]
    exact h
  · simp only [List.map_append, List.mem_append]
    exact Or.inl h

theorem not_mem_keys_dictSet {K V : Type} [DecidableEq K] (d : List (K × V)) (k : K)
    (v : V) (a : K) (ha : a ∉ d.map Prod.fst) (hak : a ≠ k) :
    a ∉ (dictSet d k v).map Prod.fst := by
  unfold dictSet
  split
  · rw [keys_map_update]
    exact ha
  · simp only [List.map_append, List.mem_append]
    rintro (h | h)
    · exact ha h
    · simp at h
      exact hak h

theorem cache_result_length_le (d : List (CacheKey × ConsultResult)) (k : CacheKey)
    (v : ConsultResult) (hmax : d.length ≤ 100) :
    (cache_result d 100 k v).length ≤ 100 := by
  unfold cache_result
  split
  · rw [dictSet_length]
    have ht : d.tail.length = d.length - 1 := List.length_tail d
    split <;> omega
  · rw [dictSet_length]
    split <;> omega

/-- C9.  The consultation cache as maintained by `_cache_result` with the
registry's fixed `cache_max_size = 100`: (1) any insertion sequence starting
from the empty cache keeps at most 100 entries; (2) an insertion at capacity
keeps every key other than the oldest (head) one — a newer key is never
evicted; (3) an insertion at capacity evicts the oldest-inserted key (the
head of the insertion-ordered dict), unless it is the key being re-inserted. -/
theorem cache_fifo_eviction :
    (∀ ops : List (CacheKey × ConsultResult),
      (ops.foldl (fun cache p => cache_result cache 100 p.1 p.2) []).length ≤ 100)
    ∧ (∀ (cache : List (CacheKey × ConsultResult)) (k : CacheKey) (v : ConsultResult),
        cache.length = 100 →
        ∀ p ∈ cache.tail, p.1 ∈ (cache_result cache 100 k v).map Prod.fst)
    ∧ (∀ (k0 : CacheKey) (v0 : ConsultResult) (rest : List (CacheKey × ConsultResult))
        (k : CacheKey) (v : ConsultResult),
        ((k0, v0) :: rest).length = 100 →
        k0 ∉ rest.map Prod.fst → k0 ≠ k →
        k0 ∉ (cache_result ((k0, v0) :: rest) 100 k v).map Prod.fst) := by
  refine ⟨?_, ?_, ?_⟩
  · have hgen : ∀ (ops : List (CacheKey × ConsultResult))
        (cache : List (CacheKey × ConsultResult)), cache.length ≤ 100 →
        (ops.foldl (fun cache p => cache_result cache 100 p.1 p.2) cache).length ≤ 100 := by
      intro ops
      induction ops with
      | nil => intro cache h; exact h
      | cons p rest ih =>
        intro cache h
        exact ih _ (cache_result_length_le cache p.1 p.2 h)
    intro ops
    exact hgen ops [] (by simp)
  · intro cache k v hlen p hp
    unfold cache_result
    rw [if_pos (by omega)]
    exact mem_keys_dictSet _ _ _ _ (List.mem_map_of_mem _ hp)
  · intro k0 v0 rest k v hlen hnm hne
    unfold cache_result
    rw [if_pos (by simp at hlen ⊢; omega)]
    exact not_mem_keys_dictSet _ _ _ _ hnm hne

/-- A placeholder cached result value. -/
def dummyResult : ConsultResult :=
  { success := false, agent := none, response := none, error := none,
    duration_ms := none, cached := none, available_agents := none }

/-- A concrete cache filled to the capacity of 100 with distinct keys
(key `i` is the string of `i` letters `a`). -/
def bigCache : List (CacheKey × ConsultResult) :=
  (List.range 100).map (fun i => (⟨String.mk (List.replicate i 'a'), "", []⟩, dummyResult))

/-- C9 witness: the FIFO properties applied at capacity — inserting a fresh
key into the full `bigCache` keeps the second-oldest key and evicts the
oldest one. -/
theorem cache_fifo_eviction_witness :
    (([((⟨"x", "", []⟩ : CacheKey), dummyResult)].foldl
        (fun cache p => cache_result cache 100 p.1 p.2) []).length ≤ 100)
    ∧ bigCache.length = 100
    ∧ ((⟨"a", "", []⟩ : CacheKey), dummyResult) ∈ bigCache.tail
    ∧ ((⟨"a", "", []⟩ : CacheKey), dummyResult).1
        ∈ (cache_result bigCache 100 ⟨"new", "", []⟩ dummyResult).map Prod.fst
    ∧ (⟨"", "", []⟩ : CacheKey)
        ∉ (cache_result (((⟨"", "", []⟩ : CacheKey), dummyResult) :: bigCache.tail)
            100 ⟨"new", "", []⟩ dummyResult).map Prod.fst :=
  ⟨cache_fifo_eviction.1 [((⟨"x", "", []⟩ : CacheKey), dummyResult)],
   by decide,
   by decide,
   cache_fifo_eviction.2.1 bigCache ⟨"new", "", []⟩ dummyResult (by decide)
     ((⟨"a", "", []⟩ : CacheKey), dummyResult) (by decide),
   cache_fifo_eviction.2.2 (⟨"", "", []⟩ : CacheKey) dummyResult bigCache.tail
     ⟨"new", "", []⟩ dummyResult (by decide) (by decide) (by decide)⟩
